import Mathlib

/-!
Shallow embedding of `src/s3_downloader.py` (class `S3Downloader`), covering
the directory-download orchestration: the extension filter, the `max_files`
truncation, the directory-marker skip, the key-to-relative-path mapping, the
per-object download loop with its accumulated statistics
(`download_directory`, lines 197-271), the single-file downloader's
exception-to-boolean boundary (`download_file`, lines 136-195), and the
success-rate computation of `generate_download_report` (line 321).

Python strings are modelled as Lean `String` (a list of code points, matching
Python's code-point indexing); the external storage client is modelled as an
oracle: `download_directory` takes the listing produced by `list_objects` as
an argument and a function `dl : String → Bool` giving the result that
`self.download_file` returns for each key, and `download_file` takes the
outcome of the client transfer attempt as a value of an explicit taxonomy.
-/

/-- Object record produced by `list_objects` (lines 122-127 of the source):
key, size, last_modified, etag.  Timestamps and etags are opaque strings. -/
structure ObjectRecord where
  key : String
  size : Nat
  last_modified : String
  etag : String

deriving instance DecidableEq for ObjectRecord

/-- Download Outcome of the spec's data model: one entry per actual call of
`download_file` inside the loop of `download_directory` (lines 245-260):
the key, the destination path passed to `download_file`, and its result. -/
structure DownloadOutcome where
  key : String
  destination_path : String
  succeeded : Bool

deriving instance DecidableEq for DownloadOutcome

/-- The statistics dictionary returned by `download_directory`.  The early
returns at lines 217 and 223 build a dictionary without a `total_files` key,
so that field is an `Option`: `none` models the absent key (readers use
`stats.get` with a default, line 318/321). -/
structure BatchStats where
  success : Bool
  downloaded : Nat
  failed : Nat
  errors : List String
  total_files : Option Nat

deriving instance DecidableEq for BatchStats

/-- Python `s.lower()`, applied per code point (faithful on ASCII keys and
extensions). -/
def pyLower (s : String) : String := ⟨s.data.map Char.toLower⟩

/-- Python `s.endswith(suf)`: `suf` is a suffix of `s`. -/
def pyEndsWith (s suf : String) : Bool := suf.data.isSuffixOf s.data

/-- Python slicing `s[n:]` for a nonnegative index, by code points. -/
def pySliceFrom (s : String) (n : Nat) : String := ⟨s.data.drop n⟩

/-- Python `s.lstrip('/')`: remove every leading `'/'`. -/
def pyLstripSlash (s : String) : String := ⟨s.data.dropWhile (· == '/')⟩

/-- The directory-marker test of line 249: `object_key.endswith('/')`. -/
def isDirMarker (key : String) : Bool := pyEndsWith key "/"

/-- The per-record extension test of line 229:
`any(obj['key'].lower().endswith(ext.lower()) for ext in extensions)`. -/
def matchesExtensions (exts : List String) (key : String) : Bool :=
  exts.any (fun ext => pyEndsWith (pyLower key) (pyLower ext))

/-- The extension filter of lines 226-231.  Python's `if extensions:` is
falsy both when the argument is `None` and when it is the empty list, in
which case the listing passes through unchanged. -/
def filterByExtensions (extensions : Option (List String))
    (objects : List ObjectRecord) : List ObjectRecord :=
  match extensions with
  | none => objects
  | some exts =>
      if exts.isEmpty then objects
      else objects.filter (fun obj => matchesExtensions exts obj.key)

/-- The truncation of lines 234-236:
`if max_files and len(objects) > max_files: objects = objects[:max_files]`.
Python's `if max_files` is falsy when the cap is `None` or `0`; the cap is
modelled as a natural number (the claims only concern nonnegative caps). -/
def truncateToMax (max_files : Option Nat)
    (objects : List ObjectRecord) : List ObjectRecord :=
  match max_files with
  | none => objects
  | some m => if m ≠ 0 ∧ objects.length > m then objects.take m else objects

/-- The two-stage pipeline applied to the listing in `download_directory`
(lines 226-236): extension filter, then truncation. -/
def pipeline (extensions : Option (List String)) (max_files : Option Nat)
    (listing : List ObjectRecord) : List ObjectRecord :=
  truncateToMax max_files (filterByExtensions extensions listing)

/-- The path mapping of line 253:
`relative_path = object_key[len(prefix):].lstrip('/')` (the source parameter
named after the key namespace is written `pfx` here). -/
def mapKeyToRelative (pfx key : String) : String :=
  pyLstripSlash (pySliceFrom key pfx.length)

/-- The download loop of lines 245-260.  For the tail of the listing it
returns `(downloaded, failed, errors, outcomes)`: the two counters, the list
of failed keys in loop order, and the spec-level Download Outcomes (one per
`download_file` call).  Directory markers are skipped by the `continue` at
line 250.  `dl key` is the oracle for the result of `self.download_file`. -/
def processObjects (dl : String → Bool) (pfx : String) :
    List ObjectRecord → Nat × Nat × List String × List DownloadOutcome
  | [] => (0, 0, [], [])
  | obj :: rest =>
      if isDirMarker obj.key then processObjects dl pfx rest
      else
        let ok := dl obj.key
        let out : DownloadOutcome := ⟨obj.key, mapKeyToRelative pfx obj.key, ok⟩
        let r := processObjects dl pfx rest
        if ok then (r.1 + 1, r.2.1, r.2.2.1, out :: r.2.2.2)
        else (r.1, r.2.1 + 1, obj.key :: r.2.2.1, out :: r.2.2.2)

/-- The body of `download_directory` (lines 197-271).  `bucketOk` models
whether `bucket_name or self.bucket_name` is truthy (lines 214-217);
`listing` is the result of `self.list_objects(bucket, prefix)` (line 220).
The emptiness check of line 221 happens before filtering, so a listing that
the filter empties still reaches the main branch with `total_files = 0`. -/
def download_directory (dl : String → Bool) (bucketOk : Bool)
    (listing : List ObjectRecord) (pfx : String)
    (extensions : Option (List String)) (max_files : Option Nat) : BatchStats :=
  if !bucketOk then ⟨false, 0, 0, [], none⟩
  else if listing.isEmpty then ⟨true, 0, 0, [], none⟩
  else
    let objects := pipeline extensions max_files listing
    let r := processObjects dl pfx objects
    ⟨r.2.1 == 0, r.1, r.2.1, r.2.2.1, some objects.length⟩

/-- The Download Outcomes generated by a `download_directory` run: one per
call of `download_file` inside the loop; the early returns of lines 217 and
223 perform no download at all. -/
def download_outcomes (dl : String → Bool) (bucketOk : Bool)
    (listing : List ObjectRecord) (pfx : String)
    (extensions : Option (List String)) (max_files : Option Nat) :
    List DownloadOutcome :=
  if !bucketOk then []
  else if listing.isEmpty then []
  else (processObjects dl pfx (pipeline extensions max_files listing)).2.2.2

/-- Outcome taxonomy of a single transfer attempt as surfaced by the storage
client in `download_file` (lines 165-195): success, `ClientError` with code
`NoSuchKey`, `ClientError` with code `NoSuchBucket`, any other
`ClientError`, or any other exception. -/
inductive TransferResult where
  | ok
  | noSuchKey
  | noSuchBucket
  | clientError (msg : String)
  | unexpectedError (msg : String)

deriving instance DecidableEq for TransferResult

/-- The boolean boundary of `download_file` (lines 136-195): a falsy bucket
name returns `False` at line 154; every exception class is caught by the
handlers at lines 184-195 and reduced to `False`; only a completed transfer
reaches the `return True` at line 182.  The function is total: no exception
escapes it. -/
def download_file (bucketOk : Bool) (result : TransferResult) : Bool :=
  if !bucketOk then false
  else
    match result with
    | .ok => true
    | .noSuchKey => false
    | .noSuchBucket => false
    | .clientError _ => false
    | .unexpectedError _ => false

/-- The success-rate expression of `generate_download_report` (line 321):
`stats.get('downloaded', 0) / max(stats.get('total_files', 1), 1) * 100`,
as an exact rational (the claims evaluate it only at `0`, where binary
floating point is exact). -/
def successRate (stats : BatchStats) : ℚ :=
  (stats.downloaded : ℚ) / max ((stats.total_files.getD 1 : Nat) : ℚ) 1 * 100

/-- One-decimal fixed rendering of a number of tenths, the shape produced by
the `:.1f` format for a nonnegative value. -/
def formatTenths (t : Nat) : String :=
  toString (t / 10) ++ "." ++ toString (t % 10)

/-- The formatted percentage of report line 321: the rate rounded to tenths
and rendered with one decimal, followed by `%`. -/
def successRateStr (stats : BatchStats) : String :=
  formatTenths (round (successRate stats * 10)).toNat ++ "%"

/-! ### Sample records used by concrete witnesses and counterexamples -/

/-- A directory-marker record (zero-byte key ending in the separator). -/
def recMarker : ObjectRecord := ⟨"a/", 0, "", ""⟩

/-- A plain text-file record. -/
def recTxt : ObjectRecord := ⟨"b.txt", 1, "", ""⟩

/-- An image record whose key is upper-case, for the case-insensitive
extension match. -/
def recJpg : ObjectRecord := ⟨"A.JPG", 10, "", ""⟩

/-- A second image record. -/
def recPng : ObjectRecord := ⟨"c.png", 2, "", ""⟩

/-! ### Helper lemmas about the download loop -/

/-- Closed form of the loop: the counters are the sizes of the success and
failure parts of the marker-free records, the error list is the failed keys
in order, and the outcomes are one per marker-free record in order. -/
theorem processObjects_eq (dl : String → Bool) (pfx : String)
    (objs : List ObjectRecord) :
    processObjects dl pfx objs =
      (((objs.filter (fun o => !isDirMarker o.key)).filter
          (fun o => dl o.key)).length,
       ((objs.filter (fun o => !isDirMarker o.key)).filter
          (fun o => !dl o.key)).length,
       ((objs.filter (fun o => !isDirMarker o.key)).filter
          (fun o => !dl o.key)).map (fun o => o.key),
       (objs.filter (fun o => !isDirMarker o.key)).map
          (fun o => ⟨o.key, mapKeyToRelative pfx o.key, dl o.key⟩)) := by
  induction objs with
  | nil => rfl
  | cons obj rest ih =>
      by_cases hm : isDirMarker obj.key
      · simp [processObjects, hm, List.filter_cons, ih]
      · by_cases hd : dl obj.key
        · simp [processObjects, hm, hd, List.filter_cons, ih]
        · simp [processObjects, hm, hd, List.filter_cons, ih]

/-- Both pipeline stages map an empty listing to an empty listing. -/
theorem pipeline_nil (extensions : Option (List String))
    (max_files : Option Nat) :
    pipeline extensions max_files [] = [] := by
  unfold pipeline
  have h1 : filterByExtensions extensions [] = [] := by
    cases extensions with
    | none => rfl
    | some exts => simp [filterByExtensions]
  rw [h1]
  cases max_files with
  | none => rfl
  | some m => simp [truncateToMax]

/-- On a non-empty listing with a configured bucket, `download_directory`
takes its main branch. -/
theorem download_directory_eq (dl : String → Bool) (pfx : String)
    (extensions : Option (List String)) (max_files : Option Nat)
    (listing : List ObjectRecord) (h : listing.isEmpty = false) :
    download_directory dl true listing pfx extensions max_files =
      ⟨(processObjects dl pfx (pipeline extensions max_files listing)).2.1 == 0,
       (processObjects dl pfx (pipeline extensions max_files listing)).1,
       (processObjects dl pfx (pipeline extensions max_files listing)).2.1,
       (processObjects dl pfx (pipeline extensions max_files listing)).2.2.1,
       some (pipeline extensions max_files listing).length⟩ := by
  simp [download_directory, h]

/-- Shared helper: with a configured bucket, `downloaded + failed` is the
number of marker-free records of the filtered-and-truncated listing. -/
theorem downloaded_add_failed_eq (dl : String → Bool) (listing : List ObjectRecord)
    (pfx : String) (extensions : Option (List String)) (max_files : Option Nat) :
    (download_directory dl true listing pfx extensions max_files).downloaded
        + (download_directory dl true listing pfx extensions max_files).failed
      = ((pipeline extensions max_files listing).filter
          (fun o => !isDirMarker o.key)).length := by
  by_cases h : listing.isEmpty
  · have hl : listing = [] := List.isEmpty_iff.mp h
    subst hl
    simp [download_directory, pipeline_nil]
  · simp only [Bool.not_eq_true] at h
    rw [download_directory_eq dl pfx extensions max_files listing h]
    rw [processObjects_eq]
    exact (List.length_eq_length_filter_add (fun o : ObjectRecord => dl o.key)).symm

/-- On a non-empty listing with a configured bucket, `download_outcomes`
takes its main branch. -/
theorem download_outcomes_eq (dl : String → Bool) (pfx : String)
    (extensions : Option (List String)) (max_files : Option Nat)
    (listing : List ObjectRecord) (h : listing.isEmpty = false) :
    download_outcomes dl true listing pfx extensions max_files =
      (processObjects dl pfx (pipeline extensions max_files listing)).2.2.2 := by
  simp [download_outcomes, h]

/-! ### Claims -/

/-- C1, counterexample: on the listing `["a/", "b.txt"]` (one directory
marker, one file) with an always-succeeding downloader, the run reports
`downloaded + failed = 1` but `total_files = 2`: the statistics count the
marker in `total_files` even though it produces no attempt, so
`downloaded + failed` differs from `total_files` (and `total_files` is not
the post-marker-exclusion count, which is `1`). -/
theorem C1_counterexample :
    let s := download_directory (fun _ => true) true [recMarker, recTxt] "" none none
    s.downloaded + s.failed = 1 ∧ s.total_files = some 2 ∧
      ¬ s.downloaded + s.failed = s.total_files.getD 0 := by decide

/-- C1 (amended): after a `download_directory` run with a bucket configured,
`downloaded + failed` equals the number of non-marker records among the
filtered-and-truncated listing, while the reported `total_files` equals the
full length of that listing, directory markers included; hence
`downloaded + failed ≤ total_files`, with equality exactly when no marker
survives the filter. -/
theorem C1_batch_invariant (dl : String → Bool) (listing : List ObjectRecord)
    (pfx : String) (extensions : Option (List String)) (max_files : Option Nat) :
    (download_directory dl true listing pfx extensions max_files).downloaded
        + (download_directory dl true listing pfx extensions max_files).failed
      = ((pipeline extensions max_files listing).filter
          (fun o => !isDirMarker o.key)).length
    ∧ (download_directory dl true listing pfx extensions max_files).total_files.getD
          (pipeline extensions max_files listing).length
      = (pipeline extensions max_files listing).length := by
  refine ⟨downloaded_add_failed_eq dl listing pfx extensions max_files, ?_⟩
  by_cases h : listing.isEmpty
  · have hl : listing = [] := List.isEmpty_iff.mp h
    subst hl
    simp [download_directory, pipeline_nil]
  · simp only [Bool.not_eq_true] at h
    rw [download_directory_eq dl pfx extensions max_files listing h]
    simp

/-- C2, counterexample: with cap `M = 0` and a one-element filtered listing,
the truncation step keeps the whole listing (Python's `if max_files:` is
falsy at `0`), so it yields `1` record instead of `min(1, 0) = 0`. -/
theorem C2_counterexample :
    (truncateToMax (some 0) [recTxt]).length = 1
    ∧ ¬ (truncateToMax (some 0) [recTxt]).length = min [recTxt].length 0 := by decide

/-- C2 (amended): for every cap `M ≥ 1` the truncation yields exactly
`min(len(L), M)` records; for every cap the result is a prefix of the
filtered listing (so relative order is preserved and the kept records form a
stable prefix); a cap of `0`, like an absent cap, disables truncation and
returns the listing unchanged. -/
theorem C2_truncation (L : List ObjectRecord) (M : Nat) :
    (1 ≤ M → (truncateToMax (some M) L).length = min L.length M)
    ∧ truncateToMax (some M) L <+: L
    ∧ truncateToMax (some 0) L = L
    ∧ truncateToMax none L = L := by
  refine ⟨?_, ?_, by simp [truncateToMax], rfl⟩
  · intro hM
    by_cases h : L.length > M
    · have hc : M ≠ 0 ∧ L.length > M := ⟨by omega, h⟩
      simp only [truncateToMax, if_pos hc, List.length_take]
      omega
    · have hc : ¬ (M ≠ 0 ∧ L.length > M) := by tauto
      simp only [truncateToMax, if_neg hc]
      omega
  · simp only [truncateToMax]
    split
    · exact List.take_prefix _ _
    · exact List.prefix_rfl

/-- C2 witness: instantiating the amended truncation theorem with cap `1` on
a two-record listing. -/
theorem C2_truncation_witness :
    (truncateToMax (some 1) [recTxt, recPng]).length = min [recTxt, recPng].length 1 :=
  (C2_truncation [recTxt, recPng] 1).1 (by decide)

/-- C3, counterexample: on the one-record listing `["a/"]` (a directory
marker only) the marker is excluded from `downloaded` and `failed` but the
run still reports `total_files = 1`, so markers are not excluded from all
three counts. -/
theorem C3_counterexample :
    let s := download_directory (fun _ => true) true [recMarker] "" none none
    s.downloaded = 0 ∧ s.failed = 0 ∧ s.total_files = some 1 ∧
      ¬ s.total_files = some 0 := by decide

/-- C3 (amended): directory-marker keys never produce a Download Outcome and
are excluded from the `downloaded` and `failed` counts, but they are counted
in `total_files`, which is the length of the filtered-and-truncated listing
markers included. -/
theorem C3_marker_exclusion (dl : String → Bool) (listing : List ObjectRecord)
    (pfx : String) (extensions : Option (List String)) (max_files : Option Nat) :
    (∀ o ∈ download_outcomes dl true listing pfx extensions max_files,
        isDirMarker o.key = false)
    ∧ (download_directory dl true listing pfx extensions max_files).downloaded
        + (download_directory dl true listing pfx extensions max_files).failed
      = ((pipeline extensions max_files listing).filter
          (fun o => !isDirMarker o.key)).length
    ∧ (¬ listing = [] →
        (download_directory dl true listing pfx extensions max_files).total_files
          = some (pipeline extensions max_files listing).length) := by
  refine ⟨?_, downloaded_add_failed_eq dl listing pfx extensions max_files, ?_⟩
  · intro o ho
    by_cases h : listing.isEmpty
    · have hl : listing = [] := List.isEmpty_iff.mp h
      subst hl
      simp [download_outcomes, pipeline_nil] at ho
    · simp only [Bool.not_eq_true] at h
      rw [download_outcomes_eq dl pfx extensions max_files listing h,
        processObjects_eq] at ho
      obtain ⟨r, hr, hro⟩ := List.mem_map.mp ho
      have hmem := List.mem_filter.mp hr
      have : o.key = r.key := by rw [← hro]
      rw [this]
      simpa using hmem.2
  · intro hne
    have h : listing.isEmpty = false := by
      cases listing with
      | nil => exact absurd rfl hne
      | cons a l => rfl
    rw [download_directory_eq dl pfx extensions max_files listing h]

/-- C3 witness: instantiating the amended marker theorem on the listing
`["a/", "b.txt"]`: the reported `total_files` is `2`, the full length of the
pipeline output including the marker. -/
theorem C3_marker_exclusion_witness :
    (download_directory (fun _ => true) true [recMarker, recTxt] "" none none).total_files
      = some (pipeline none none [recMarker, recTxt]).length :=
  (C3_marker_exclusion (fun _ => true) [recMarker, recTxt] "" none none).2.2
    (by decide)

/-- Helper: dropping every leading `'/'` leaves a list whose head is not
`'/'`. -/
theorem head_dropWhileSlash_ne (l : List Char) :
    (l.dropWhile (· == '/')).head? ≠ some '/' := by
  induction l with
  | nil => simp
  | cons x xs ih =>
      by_cases h : x = '/'
      · simpa [List.dropWhile_cons, h] using ih
      · simp [List.dropWhile_cons, h]

/-- C4, counterexample: for prefix `"images/"` and key
`"images/images/x.png"` (a key that legitimately lies under the prefix) the
mapping yields `"images/x.png"`, which does contain the prefix as a literal
leading component. -/
theorem C4_counterexample :
    mapKeyToRelative "images/" "images/images/x.png" = "images/x.png"
    ∧ ("images/".data).isPrefixOf
        (mapKeyToRelative "images/" "images/images/x.png").data = true := by decide

/-- C4 (amended): for every key and prefix the mapped relative path never
starts with a path separator, and the documented scenario holds: prefix
`"images/"` with key `"images/sub/x.png"` maps to `"sub/x.png"`.  The
mapped path can, however, contain the prefix as a literal leading component
when the key repeats it. -/
theorem C4_path_mapping (pfx key : String) :
    (mapKeyToRelative pfx key).data.head? ≠ some '/'
    ∧ mapKeyToRelative "images/" "images/sub/x.png" = "sub/x.png" := by
  exact ⟨head_dropWhileSlash_ne _, by decide⟩

/-- C5 (confirmed): for a non-empty allow-list `E` the filter stage keeps
exactly the records of `L` whose key ends, case-insensitively, in some
element of `E`; an absent (`none`) or empty allow-list returns the listing
unchanged. -/
theorem C5_extension_filter (L : List ObjectRecord) (E : List String) :
    (¬ E = [] → ∀ r : ObjectRecord,
        (r ∈ filterByExtensions (some E) L ↔
          r ∈ L ∧ ∃ ext ∈ E, pyEndsWith (pyLower r.key) (pyLower ext) = true))
    ∧ filterByExtensions none L = L
    ∧ filterByExtensions (some []) L = L := by
  refine ⟨?_, rfl, by simp [filterByExtensions]⟩
  intro hE r
  have hne : E.isEmpty = false := by
    cases E with
    | nil => exact absurd rfl hE
    | cons e es => rfl
  simp [filterByExtensions, hne, List.mem_filter, matchesExtensions,
    List.any_eq_true]

/-- C5 witness: with allow-list `[".jpg"]` the record keyed `"A.JPG"` (note
the case difference) is kept. -/
theorem C5_extension_filter_witness :
    recJpg ∈ filterByExtensions (some [".jpg"]) [recJpg, recTxt] :=
  ((C5_extension_filter [recJpg, recTxt] [".jpg"]).1 (by decide) recJpg).mpr
    ⟨by decide, ⟨".jpg", by decide, by decide⟩⟩

/-- C6, counterexample: when no bucket name is configured (the early return
of lines 214-217), `download_directory` returns `success = False` although
`failed = 0`, so over all runs the success flag is not equivalent to a zero
failed count. -/
theorem C6_counterexample :
    (download_directory (fun _ => true) false [recTxt] "" none none).success = false
    ∧ (download_directory (fun _ => true) false [recTxt] "" none none).failed = 0 := by
  decide

/-- C6 (amended): for every run with a bucket configured, the success flag
is true iff the failed count is zero; every eligible (non-marker) record of
the filtered-and-truncated listing is attempted exactly once, in order,
regardless of earlier failures (the Download Outcomes are exactly one per
eligible record), and the failed keys are recorded in `errors` in order. -/
theorem C6_success_and_attempts (dl : String → Bool) (listing : List ObjectRecord)
    (pfx : String) (extensions : Option (List String)) (max_files : Option Nat) :
    ((download_directory dl true listing pfx extensions max_files).success = true ↔
      (download_directory dl true listing pfx extensions max_files).failed = 0)
    ∧ (download_outcomes dl true listing pfx extensions max_files).map
        (fun o => o.key)
      = ((pipeline extensions max_files listing).filter
          (fun o => !isDirMarker o.key)).map (fun o => o.key)
    ∧ (download_directory dl true listing pfx extensions max_files).errors
      = (((pipeline extensions max_files listing).filter
          (fun o => !isDirMarker o.key)).filter (fun o => !dl o.key)).map
          (fun o => o.key) := by
  by_cases h : listing.isEmpty
  · have hl : listing = [] := List.isEmpty_iff.mp h
    subst hl
    simp [download_directory, download_outcomes, pipeline_nil]
  · simp only [Bool.not_eq_true] at h
    rw [download_directory_eq dl pfx extensions max_files listing h,
      download_outcomes_eq dl pfx extensions max_files listing h,
      processObjects_eq]
    refine ⟨by simp, by simp, rfl⟩

/-- C7 (confirmed): with a bucket configured and an empty listing,
`download_directory` takes the early return of lines 221-223: success flag
true, zero downloaded and failed counts, empty error list, and a
`total_files` count that reads as zero (the key is absent from the
dictionary, and its readers default it). -/
theorem C7_empty_listing (dl : String → Bool) (pfx : String)
    (extensions : Option (List String)) (max_files : Option Nat) :
    (download_directory dl true [] pfx extensions max_files).success = true
    ∧ (download_directory dl true [] pfx extensions max_files).downloaded = 0
    ∧ (download_directory dl true [] pfx extensions max_files).failed = 0
    ∧ (download_directory dl true [] pfx extensions max_files).errors = []
    ∧ (download_directory dl true [] pfx extensions max_files).total_files.getD 0
        = 0 := by
  simp [download_directory]

/-- C9 (confirmed): `download_file` returns `True` exactly when the bucket
name is truthy and the transfer completed; every element of the failure
taxonomy (object not found, bucket not found, other client error,
unexpected error) reduces to `False`, and the function is total, so no
exception escapes its boundary. -/
theorem C9_download_file_boundary (bucketOk : Bool) (result : TransferResult) :
    download_file bucketOk result = true ↔
      bucketOk = true ∧ result = TransferResult.ok := by
  cases bucketOk <;> cases result <;> simp [download_file]

/-- C10 (confirmed): the extension filter stage returns a subsequence of its
input, so it preserves the relative order of the surviving records. -/
theorem C10_filter_subsequence (extensions : Option (List String))
    (L : List ObjectRecord) :
    (filterByExtensions extensions L).Sublist L := by
  cases extensions with
  | none => exact List.Sublist.refl L
  | some exts =>
      simp only [filterByExtensions]
      split
      · exact List.Sublist.refl L
      · exact List.filter_sublist L

/-- C8 (confirmed): the report's denominator `max(total_files, 1)` is at
least `1` (never zero), and a run whose statistics carry a zero (or absent,
defaulted-to-zero) `total_files` renders the success rate as exactly
`"0.0%"` rather than raising a division error. -/
theorem C8_zero_total_rate (dl : String → Bool) (listing : List ObjectRecord)
    (pfx : String) (extensions : Option (List String)) (max_files : Option Nat) :
    (1 : ℚ) ≤ max (((download_directory dl true listing pfx extensions
        max_files).total_files.getD 1 : Nat) : ℚ) 1
    ∧ ((download_directory dl true listing pfx extensions max_files).total_files.getD 0
          = 0 →
        successRateStr (download_directory dl true listing pfx extensions max_files)
          = "0.0%") := by
  refine ⟨le_max_right _ _, ?_⟩
  intro h0
  have hd : (download_directory dl true listing pfx extensions max_files).downloaded
      = 0 := by
    by_cases h : listing.isEmpty
    · have hl : listing = [] := List.isEmpty_iff.mp h
      subst hl
      simp [download_directory]
    · simp only [Bool.not_eq_true] at h
      rw [download_directory_eq dl pfx extensions max_files listing h] at h0 ⊢
      simp only [Option.getD_some] at h0
      have hnil : pipeline extensions max_files listing = [] :=
        List.length_eq_zero.mp h0
      rw [processObjects_eq, hnil]
      simp
  have hr : successRate (download_directory dl true listing pfx extensions max_files)
      = 0 := by
    simp [successRate, hd]
  rw [successRateStr, hr]
  norm_num
  decide

/-- C8 witness: a listing whose only record is filtered out by the
allow-list reaches the main branch with `total_files = 0` and reports a
success rate of exactly `"0.0%"`. -/
theorem C8_zero_total_rate_witness :
    successRateStr (download_directory (fun _ => true) true [recTxt] ""
        (some [".jpg"]) none) = "0.0%" :=
  (C8_zero_total_rate (fun _ => true) [recTxt] "" (some [".jpg"]) none).2 (by decide)

/-- C4 witness: the amended path-mapping theorem instantiated on the
documented scenario. -/
theorem C4_path_mapping_witness :
    mapKeyToRelative "images/" "images/sub/x.png" = "sub/x.png" :=
  (C4_path_mapping "images/" "images/sub/x.png").2
